import Mathlib

/-!
# Verification of the symrax voice-agent core logic

Shallow embedding of the decision logic in `src/symrax_agent.py`:

* `_clean_phone_number` — caller-identifier normalization (`HarmonyTools._clean_phone_number`);
* `get_slot` — the availability webhook gateway (`HarmonyTools.get_slot`), modelled as a pure
  function of the request arguments and of the backend's observable behaviour;
* `is_unknown` — the unknown/blocked caller classification in `entrypoint`;
* `entrypoint_branch` — the branch decision of `entrypoint` (reject vs. active session);
* `nextBusinessDay` — modelled from the spec (no corresponding code ships in `src/`).

Python string primitives (`str.isdigit`, `str.isspace`, `str.lower`, `in`, `startswith`,
`strip`) are embedded as executable Lean functions on `Char`/`List Char`.
-/

/-- Fragment of Python's `str.isdigit` on a single character: true on the ASCII digits and on
the common non-ASCII digit characters (superscript and subscript digits, Arabic-Indic,
extended Arabic-Indic, Devanagari and fullwidth decimal digits).  Python's `str.isdigit`
accepts every Unicode character with `Numeric_Type=Digit` or `Decimal`; this model returns
`true` on the listed representative ranges and conservatively `false` elsewhere.  In
particular it is exact on all ASCII input. -/
def pyIsDigit (c : Char) : Bool :=
  (48 ≤ c.toNat && c.toNat ≤ 57)          -- '0'..'9'
  || (c.toNat == 0xB2) || (c.toNat == 0xB3) || (c.toNat == 0xB9)  -- superscript 2, 3, 1
  || (0x660 ≤ c.toNat && c.toNat ≤ 0x669)   -- Arabic-Indic digits
  || (0x6F0 ≤ c.toNat && c.toNat ≤ 0x6F9)   -- extended Arabic-Indic digits
  || (0x966 ≤ c.toNat && c.toNat ≤ 0x96F)   -- Devanagari digits
  || (c.toNat == 0x2070) || (0x2074 ≤ c.toNat && c.toNat ≤ 0x2079)  -- superscripts
  || (0x2080 ≤ c.toNat && c.toNat ≤ 0x2089) -- subscript digits
  || (0xFF10 ≤ c.toNat && c.toNat ≤ 0xFF19) -- fullwidth digits

/-- The ASCII digits `'0'`–`'9'` (codepoints 48–57), the character class named by the
spec's output invariant for the canonical phone number. -/
def isAsciiDigit (c : Char) : Bool :=
  48 ≤ c.toNat && c.toNat ≤ 57

/-- Python's whitespace class (the characters `str.strip()` removes / `str.isspace`
accepts): ASCII whitespace, the ASCII separator controls, NEL, NBSP and the Unicode
space separators. -/
def pyIsSpace (c : Char) : Bool :=
  (9 ≤ c.toNat && c.toNat ≤ 13)  -- tab, LF, VT, FF, CR
  || c.toNat == 32
  || (0x1C ≤ c.toNat && c.toNat ≤ 0x1F)
  || c.toNat == 0x85 || c.toNat == 0xA0
  || c.toNat == 0x1680
  || (0x2000 ≤ c.toNat && c.toNat ≤ 0x200A)
  || c.toNat == 0x2028 || c.toNat == 0x2029
  || c.toNat == 0x202F || c.toNat == 0x205F || c.toNat == 0x3000

/-- Python's `str.lower`, character-wise; exact on ASCII (the only case the source
exercises: the classifier compares against ASCII denylist tokens). -/
def pyLower (s : String) : String :=
  ⟨s.data.map Char.toLower⟩

/-- Python's `str.strip()`: remove leading and trailing whitespace. -/
def pyStrip (s : String) : String :=
  ⟨((s.data.dropWhile pyIsSpace).reverse.dropWhile pyIsSpace).reverse⟩

/-- `needle` occurs as a contiguous sublist of `hay` (Python's `needle in hay` on strings,
over the character lists). -/
def listContainsSublist (needle : List Char) : List Char → Bool
  | [] => needle.isPrefixOf []
  | c :: t => needle.isPrefixOf (c :: t) || listContainsSublist needle t

/-- Python's substring test `needle in hay`. -/
def strContainsSubstr (hay needle : String) : Bool :=
  listContainsSublist needle.data hay.data

/-- `HarmonyTools._clean_phone_number` (src/symrax_agent.py lines 28–34): the mock caller
sentinel maps to a fixed test number; a `sip_` prefix is stripped; all characters other
than Python digits and `'+'` are dropped. -/
def clean_phone_number (phone_num : String) : String :=
  if phone_num == "mock_user" then
    "4168398090"
  else
    let phone_num := if "sip_".data.isPrefixOf phone_num.data then ⟨phone_num.data.drop 4⟩
      else phone_num
    ⟨phone_num.data.filter (fun c => pyIsDigit c || c == '+')⟩

/-! ## The availability gateway (`HarmonyTools.get_slot`, lines 36–65) -/

/-- The fixed webhook endpoint (line 26). -/
def webhook_url : String := "https://n8n.srv891045.hstgr.cloud/webhook/harmony"

/-- The fixed total timeout, in seconds, applied to the webhook call
(`aiohttp.ClientTimeout(total=10)`, line 48). -/
def WEBHOOK_TIMEOUT_TOTAL : Nat := 10

/-- Fixed apology string returned on a non-200 HTTP status (line 58). -/
def MSG_APOLOGY : String := "Sorry, I\x27m having trouble checking availability right now."

/-- Fixed string returned when the bounded wait is exceeded (line 62). -/
def MSG_SLOW : String := "The availability system is temporarily slow to respond."

/-- Fixed string returned on any other transport-level failure (line 65). -/
def MSG_UNAVAILABLE : String := "The availability system is temporarily unavailable."

/-- Fixed fallback returned on a 200 response whose body lacks a `result` field
(line 53). -/
def MSG_NO_DATA : String := "No availability data received"

/-- Result of parsing the response body (`await response.json()`): either a JSON object
whose `result` envelope, if present, holds a string, or a body that is not a JSON object
(parsing raises, which the catch-all handler absorbs). -/
inductive JsonBody
  | obj (fields : List (String × String))
  | malformed
  deriving DecidableEq

/-- Observable behaviour of the backend for one webhook invocation: an HTTP response with
a status and a body, a timeout (`asyncio.TimeoutError`), or any other transport failure
(DNS, connection refused, ... — the `except Exception` branch). -/
inductive WebhookOutcome
  | response (status : Nat) (body : JsonBody)
  | timeout
  | transportFailure
  deriving DecidableEq

/-- The JSON payload of the HTTP POST issued by `get_slot` (lines 39–45), as the ordered
list of its fields. -/
def get_slot_payload (phoneNum appointmentType bookingDate bookingTime : String) :
    List (String × String) :=
  [("action", "get_slot"),
   ("appointmentType", appointmentType),
   ("bookingDate", bookingDate),
   ("bookingTime", bookingTime),
   ("phoneNumber", phoneNum)]

/-- The full HTTP request issued by one `get_slot` invocation: endpoint, JSON payload,
and total timeout. -/
structure WebhookRequest where
  url : String
  payload : List (String × String)
  timeout_total : Nat
  deriving DecidableEq

/-- The request `get_slot` issues (lines 39–50); `bookingDate` and `bookingTime` default
to the sentinel `"false"` as in the Python signature (line 37). -/
def get_slot_request (phoneNum appointmentType : String)
    (bookingDate : String := "false") (bookingTime : String := "false") : WebhookRequest :=
  { url := webhook_url,
    payload := get_slot_payload phoneNum appointmentType bookingDate bookingTime,
    timeout_total := WEBHOOK_TIMEOUT_TOTAL }

/-- `HarmonyTools.get_slot` response handling (lines 47–65), as a function of the
backend's observable behaviour.  A 200 response returns the `result` field (or the fixed
fallback when absent; a non-object body makes `response.json()`/`data.get` raise, which
the catch-all turns into the unavailable string); a non-200 response returns the fixed
apology; a timeout returns the fixed slow-system string; any other failure returns the
fixed unavailable string.  Totality of this function is the no-escaping-exception
contract. -/
def get_slot (phoneNum appointmentType : String)
    (bookingDate : String := "false") (bookingTime : String := "false")
    (outcome : WebhookOutcome) : String :=
  match outcome with
  | .response status body =>
    if status == 200 then
      match body with
      | .obj fields => (fields.lookup "result").getD MSG_NO_DATA
      | .malformed => MSG_UNAVAILABLE
    else
      MSG_APOLOGY
  | .timeout => MSG_SLOW
  | .transportFailure => MSG_UNAVAILABLE

/-! ## Caller classification and the entrypoint branch (lines 67–129) -/

/-- The fixed denylist patterns of `entrypoint` (lines 77–80). -/
def unknown_patterns : List String :=
  ["", "unknown", "anonymous", "private", "restricted", "unavailable", "blocked",
   "sip_unavailable", "sip_unknown", "sip_anonymous", "sip_private", "sip_restricted",
   "sip_blocked"]

/-- The six bare denylist tokens the classifier also searches for as substrings
(lines 87–92). -/
def denylist_tokens : List String :=
  ["unavailable", "unknown", "anonymous", "private", "restricted", "blocked"]

/-- The unknown/blocked-caller check of `entrypoint` (lines 82–93): true when the
identifier is empty, strips to empty, equals a denylist pattern case-insensitively, or
contains one of the bare tokens case-insensitively as a substring.  (In the source the
lowered identifier is `caller_id.lower() if caller_id else ""`; `pyLower "" = ""`, so the
conditional is dropped.) -/
def is_unknown (caller_id : String) : Bool :=
  let caller_id_lower := pyLower caller_id
  caller_id == ""
  || pyStrip caller_id == ""
  || unknown_patterns.contains caller_id_lower
  || strContainsSubstr caller_id_lower "unavailable"
  || strContainsSubstr caller_id_lower "unknown"
  || strContainsSubstr caller_id_lower "anonymous"
  || strContainsSubstr caller_id_lower "private"
  || strContainsSubstr caller_id_lower "restricted"
  || strContainsSubstr caller_id_lower "blocked"

/-- The capabilities the entrypoint can expose to the conversational model
(`tools=[harmony_tools.get_slot]`, lines 372–374). -/
inductive ToolId
  | get_slot
  deriving DecidableEq

/-- The fixed rejection script delivered in the rejecting branch (line 99). -/
def REJECTION_SCRIPT : String :=
  "We\x27re sorry, but we cannot assist calls from unknown or private numbers. Please call back from a recognized phone number."

/-- Outcome of the entrypoint's branch decision: the rejecting branch delivers one fixed
message and exposes no tools before terminating; the active branch exposes a tool list
and carries the normalized phone number the tools are constructed with. -/
inductive SessionOutcome
  | rejecting (message : String)
  | active (tools : List ToolId) (phoneNum : String)
  deriving DecidableEq

/-- Tools exposed in a session outcome; the rejecting branch exposes none. -/
def session_tools : SessionOutcome → List ToolId
  | .rejecting _ => []
  | .active tools _ => tools

/-- The branch decision of `entrypoint` (lines 95–129): an unknown caller gets the fixed
rejection and the session is terminated with no tools exposed; otherwise the session is
active, exposes exactly `get_slot`, and the tools hold the phone number normalized from
the caller identifier (`HarmonyTools(phoneNum=caller_id)`, lines 24–25 and 129). -/
def entrypoint_branch (caller_id : String) : SessionOutcome :=
  if is_unknown caller_id then
    .rejecting REJECTION_SCRIPT
  else
    .active [ToolId.get_slot] (clean_phone_number caller_id)

/-! ## CalendarUtil (modelled from the spec)

Days are modelled as day indices (`Nat`), with `d % 7 = 0` on Monday through `d % 7 = 6`
on Sunday, so consecutive indices are consecutive calendar days and the weekday cycles
with period 7.  Rendering a day in `YYYY-MM-DD` form is calendar formatting and is not
modelled. -/

/-- Modelled from the spec: a day index falls on Saturday (`% 7 = 5`) or Sunday
(`% 7 = 6`). -/
def isWeekend (d : Nat) : Bool :=
  d % 7 == 5 || d % 7 == 6

/-- Modelled from the spec: the while-loop of `CalendarUtil.nextBusinessDay` — "while the
candidate's weekday is Saturday or Sunday, advance by one day" — with explicit loop fuel.
Two consecutive days are never followed by a third weekend day, so the loop body runs at
most twice and fuel `7` is never exhausted (`nextBusinessDay_spec` proves the
postcondition outright). -/
def skipWeekendAux : Nat → Nat → Nat
  | 0, c => c
  | fuel + 1, c => if isWeekend c then skipWeekendAux fuel (c + 1) else c

/-- Modelled from the spec: `CalendarUtil.nextBusinessDay` — no corresponding code ships
in `src/`; the algorithm is the spec's: start at now + 1 day, skip weekend days, return
the first weekday. -/
def nextBusinessDay (today : Nat) : Nat :=
  skipWeekendAux 7 (today + 1)

/-! ## Helper lemmas -/

/-- `listContainsSublist` decides contiguous-sublist occurrence. -/
theorem containsSublist_iff (needle hay : List Char) :
    listContainsSublist needle hay = true ↔ needle <:+: hay := by
  induction hay with
  | nil => simp [listContainsSublist, List.isPrefixOf_iff_prefix]
  | cons c t ih =>
    simp [listContainsSublist, List.isPrefixOf_iff_prefix, ih, List.infix_cons_iff]

/-- `strContainsSubstr` decides Python's substring test. -/
theorem strContains_iff (hay needle : String) :
    strContainsSubstr hay needle = true ↔ needle.data <:+: hay.data :=
  containsSublist_iff needle.data hay.data

/-- ASCII digits are fixed points of `Char.toLower`. -/
theorem toLower_of_digit (c : Char) (h : isAsciiDigit c = true) : c.toLower = c := by
  simp [isAsciiDigit] at h
  simp [Char.toLower]
  omega

/-- ASCII digits are not Python whitespace. -/
theorem pyIsSpace_of_digit (c : Char) (h : isAsciiDigit c = true) : pyIsSpace c = false := by
  simp [isAsciiDigit] at h
  simp [pyIsSpace]
  omega

/-- Below codepoint 128, the Python digit class coincides with the ASCII digits. -/
theorem pyIsDigit_of_ascii (c : Char) (h : pyIsDigit c = true) (ha : c.toNat < 128) :
    isAsciiDigit c = true := by
  simp [pyIsDigit] at h
  simp [isAsciiDigit]
  omega

/-- `dropWhile` is the identity when the predicate rejects every element. -/
theorem dropWhile_eq_self_of_false {p : Char → Bool} {l : List Char}
    (h : ∀ c ∈ l, p c = false) : l.dropWhile p = l := by
  cases l with
  | nil => rfl
  | cons a t => simp [List.dropWhile_cons, h a (by simp)]

/-- `pyLower` fixes all-ASCII-digit strings. -/
theorem pyLower_of_digits (s : String) (h : ∀ c ∈ s.data, isAsciiDigit c = true) :
    pyLower s = s := by
  have hd : s.data.map Char.toLower = s.data := by
    rw [List.map_congr_left fun a ha => toLower_of_digit a (h a ha)]
    exact List.map_id' s.data
  unfold pyLower
  rw [hd]

/-- `pyStrip` fixes all-ASCII-digit strings. -/
theorem pyStrip_of_digits (s : String) (h : ∀ c ∈ s.data, isAsciiDigit c = true) :
    pyStrip s = s := by
  have h1 : s.data.dropWhile pyIsSpace = s.data :=
    dropWhile_eq_self_of_false fun c hc => pyIsSpace_of_digit c (h c hc)
  have h2 : s.data.reverse.dropWhile pyIsSpace = s.data.reverse :=
    dropWhile_eq_self_of_false fun c hc =>
      pyIsSpace_of_digit c (h c (List.mem_reverse.mp hc))
  unfold pyStrip
  rw [h1, h2, List.reverse_reverse]

/-- `pyStrip` sends all-whitespace strings to the empty string. -/
theorem pyStrip_of_spaces (s : String) (h : ∀ c ∈ s.data, pyIsSpace c = true) :
    pyStrip s = "" := by
  have h1 : s.data.dropWhile pyIsSpace = [] := List.dropWhile_eq_nil_iff.mpr fun c hc => h c hc
  unfold pyStrip
  rw [h1]
  rfl

/-- An all-ASCII-digit string differs from any string holding a non-digit character. -/
theorem ne_of_nondigit_char (s : String) (h : ∀ c ∈ s.data, isAsciiDigit c = true)
    (p : String) (c : Char) (hc : c ∈ p.data) (hcd : isAsciiDigit c = false) : s ≠ p := by
  intro hrfl
  subst hrfl
  rw [h c hc] at hcd
  exact Bool.true_eq_false.mp hcd

/-- An all-ASCII-digit string contains no substring holding a non-digit character. -/
theorem not_substr_of_digits (s : String) (h : ∀ c ∈ s.data, isAsciiDigit c = true)
    (tok : String) (c : Char) (hc : c ∈ tok.data) (hcd : isAsciiDigit c = false) :
    strContainsSubstr s tok = false := by
  rw [Bool.eq_false_iff]
  intro hx
  have hinf := (strContains_iff s tok).1 hx
  rw [h c (hinf.subset hc)] at hcd
  exact Bool.true_eq_false.mp hcd

/-- Unfolded behaviour of the weekend-skipping loop at fuel 7: from a Saturday the loop
advances two days, from a Sunday one day, from any weekday zero days. -/
theorem skipWeekendAux_seven (c : Nat) :
    skipWeekendAux 7 c = if c % 7 = 5 then c + 2 else if c % 7 = 6 then c + 1 else c := by
  by_cases h5 : c % 7 = 5
  · have h1 : (c + 1) % 7 = 6 := by omega
    have h2 : (c + 2) % 7 = 0 := by omega
    simp [skipWeekendAux, isWeekend, h5, h1, h2]
  · by_cases h6 : c % 7 = 6
    · have h1 : (c + 1) % 7 = 0 := by omega
      simp [skipWeekendAux, isWeekend, h6, h1]
    · simp [skipWeekendAux, isWeekend, h5, h6]

/-! ## Claim theorems -/

/-- **C1.** `get_slot` never lets a failure escape (the embedding is a total function of
the backend's behaviour) and maps each failure class to its own fixed string: a non-200
HTTP status yields the fixed apology string, exceeding the bounded wait yields the fixed
slow-system string, and any other transport-level failure — connection refusal or a
malformed 200 body — yields the fixed unavailable string; the three strings are pairwise
distinct. -/
theorem get_slot_error_taxonomy (ph a d t : String) (status : Nat) (body : JsonBody)
    (hs : status ≠ 200) :
    get_slot ph a d t (.response status body) = MSG_APOLOGY ∧
    get_slot ph a d t .timeout = MSG_SLOW ∧
    get_slot ph a d t .transportFailure = MSG_UNAVAILABLE ∧
    get_slot ph a d t (.response 200 .malformed) = MSG_UNAVAILABLE ∧
    MSG_APOLOGY ≠ MSG_SLOW ∧ MSG_APOLOGY ≠ MSG_UNAVAILABLE ∧ MSG_SLOW ≠ MSG_UNAVAILABLE := by
  refine ⟨?_, rfl, rfl, rfl, by decide, by decide, by decide⟩
  simp [get_slot, hs]

/-- Witness for C1 at a concrete failing status. -/
theorem get_slot_error_taxonomy_witness :
    get_slot "4168398090" "Consultation" "false" "false" (.response 500 (.obj [])) =
      MSG_APOLOGY ∧
    get_slot "4168398090" "Consultation" "false" "false" .timeout = MSG_SLOW ∧
    get_slot "4168398090" "Consultation" "false" "false" .transportFailure =
      MSG_UNAVAILABLE ∧
    get_slot "4168398090" "Consultation" "false" "false" (.response 200 .malformed) =
      MSG_UNAVAILABLE ∧
    MSG_APOLOGY ≠ MSG_SLOW ∧ MSG_APOLOGY ≠ MSG_UNAVAILABLE ∧ MSG_SLOW ≠ MSG_UNAVAILABLE :=
  get_slot_error_taxonomy "4168398090" "Consultation" "false" "false" 500 (.obj [])
    (by decide)

/-- **C3.** On a 200 response whose JSON body carries a `result` field, `get_slot` returns
that field's value verbatim (in particular `{"result": "10:00 available"}` yields exactly
`"10:00 available"`); on a 200 body lacking the field it returns the fixed fallback
string. -/
theorem get_slot_success (ph a d t : String) (fields : List (String × String)) :
    (∀ v : String, fields.lookup "result" = some v →
      get_slot ph a d t (.response 200 (.obj fields)) = v) ∧
    (fields.lookup "result" = none →
      get_slot ph a d t (.response 200 (.obj fields)) = MSG_NO_DATA) ∧
    get_slot ph a d t (.response 200 (.obj [("result", "10:00 available")])) =
      "10:00 available" := by
  refine ⟨fun v hv => ?_, fun hn => ?_, rfl⟩
  · simp [get_slot, hv]
  · simp [get_slot, hn]

/-- Witness for C3: a present `result` field is returned verbatim, an absent one falls
back. -/
theorem get_slot_success_witness :
    get_slot "4168398090" "Ultrasound" "2025-10-27" "10:00"
      (.response 200 (.obj [("result", "10:00 available")])) = "10:00 available" ∧
    get_slot "4168398090" "Ultrasound" "2025-10-27" "10:00"
      (.response 200 (.obj [("status", "ok")])) = MSG_NO_DATA :=
  ⟨(get_slot_success "4168398090" "Ultrasound" "2025-10-27" "10:00"
      [("result", "10:00 available")]).1 "10:00 available" (by decide),
   (get_slot_success "4168398090" "Ultrasound" "2025-10-27" "10:00"
      [("status", "ok")]).2.1 (by decide)⟩

/-- **C7.** The serialized POST body of a `get_slot` invocation holds exactly the fixed
action constant plus `appointmentType`, `bookingDate` and `bookingTime` passed through
unmodified — for every argument value, i.e. with no local validation of business hours or
past dates — with omitted date and time defaulting to the sentinel `"false"`, plus a
`phoneNumber` field carrying the canonical phone number; the request is issued under a
fixed total timeout of 10 seconds. -/
theorem get_slot_request_spec (ph a d t : String) :
    (get_slot_request ph a d t).payload =
      [("action", "get_slot"), ("appointmentType", a), ("bookingDate", d),
       ("bookingTime", t), ("phoneNumber", ph)] ∧
    get_slot_request ph a = get_slot_request ph a "false" "false" ∧
    ((get_slot_request ph a d t).payload).lookup "phoneNumber" = some ph ∧
    (get_slot_request ph a d t).timeout_total = 10 ∧
    (get_slot_request ph a d t).url = webhook_url :=
  ⟨rfl, rfl, rfl, rfl, rfl⟩

/-- **C9.** `get_slot` is deterministic: two invocations with identical request fields
(hence identical serialized requests) against a backend giving the same response yield
identical result strings. -/
theorem get_slot_deterministic (ph ph' a a' d d' t t' : String) (o o' : WebhookOutcome)
    (hreq : get_slot_request ph a d t = get_slot_request ph' a' d' t') (ho : o = o') :
    get_slot ph a d t o = get_slot ph' a' d' t' o' := by
  cases ho
  rfl

/-- Witness for C9 at one concrete request and backend response. -/
theorem get_slot_deterministic_witness :
    get_slot "4168398090" "Consultation" "2025-10-27" "10:00"
        (.response 200 (.obj [("result", "booked")])) =
      get_slot "4168398090" "Consultation" "2025-10-27" "10:00"
        (.response 200 (.obj [("result", "booked")])) :=
  get_slot_deterministic "4168398090" "4168398090" "Consultation" "Consultation"
    "2025-10-27" "2025-10-27" "10:00" "10:00" _ _ rfl rfl

/-- **C2, counterexample.** The claim "for every input the output holds only ASCII digits
and `'+'`" fails: Python's `str.isdigit` also accepts non-ASCII digit characters, so the
Arabic-Indic digit `"٥"` (U+0665) passes the filter unchanged and the output holds a
character that is neither an ASCII digit nor `'+'`. -/
theorem clean_phone_ascii_counterexample :
    clean_phone_number "٥" = "٥" ∧
    ¬(∀ c ∈ (clean_phone_number "٥").data, isAsciiDigit c = true ∨ c = '+') := by
  decide

/-- **C2, amended.** `clean_phone_number` terminates without raising on every input (it is
a total function) and returns a string whose every character is `'+'` or a character of
Python's digit class; when the input is all ASCII, every output character is one of the
ASCII digits `0`–`9` or `'+'` exactly as the claim states. -/
theorem clean_phone_chars (s : String) :
    (∀ c ∈ (clean_phone_number s).data, pyIsDigit c = true ∨ c = '+') ∧
    ((∀ c ∈ s.data, c.toNat < 128) →
      ∀ c ∈ (clean_phone_number s).data, isAsciiDigit c = true ∨ c = '+') := by
  by_cases hm : s == "mock_user"
  · constructor
    · simp only [clean_phone_number, hm, if_true]
      decide
    · intro _
      simp only [clean_phone_number, hm, if_true]
      decide
  · have hsub : ∀ c ∈ (clean_phone_number s).data, c ∈ s.data ∧ (pyIsDigit c || c == '+') = true := by
      intro c hc
      simp only [clean_phone_number, hm, if_false, Bool.false_eq_true] at hc
      by_cases hp : "sip_".data.isPrefixOf s.data
      · simp only [hp, if_true] at hc
        have := List.mem_filter.mp hc
        exact ⟨List.drop_subset 4 s.data this.1, this.2⟩
      · simp only [hp, if_false, Bool.false_eq_true] at hc
        have := List.mem_filter.mp hc
        exact ⟨this.1, this.2⟩
    constructor
    · intro c hc
      rcases Bool.or_eq_true_iff.mp (hsub c hc).2 with h | h
      · exact Or.inl h
      · exact Or.inr (by simpa using h)
    · intro hascii c hc
      rcases Bool.or_eq_true_iff.mp (hsub c hc).2 with h | h
      · exact Or.inl (pyIsDigit_of_ascii c h (hascii c (hsub c hc).1))
      · exact Or.inr (by simpa using h)

/-- Witness for C2 (amended) at a concrete all-ASCII caller identifier. -/
theorem clean_phone_chars_witness :
    (∀ c ∈ ("(416) 839-8090" : String).data, c.toNat < 128) ∧
    (∀ c ∈ (clean_phone_number "(416) 839-8090").data, isAsciiDigit c = true ∨ c = '+') :=
  ⟨by decide, (clean_phone_chars "(416) 839-8090").2 (by decide)⟩

/-- **C8.** `clean_phone_number` maps the fixed mock-caller sentinel to the fixed test
number; an input starting with the fixed SIP prefix has that prefix stripped before the
character filter runs; and concretely `"sip_12894685551" ↦ "12894685551"`,
`"mock_user" ↦ "4168398090"`, `"" ↦ ""`. -/
theorem clean_phone_number_cases :
    clean_phone_number "mock_user" = "4168398090" ∧
    (∀ s : String, "sip_".data.isPrefixOf s.data = true →
      clean_phone_number s = ⟨(s.data.drop 4).filter (fun c => pyIsDigit c || c == '+')⟩) ∧
    clean_phone_number "sip_12894685551" = "12894685551" ∧
    clean_phone_number "" = "" := by
  refine ⟨by decide, fun s hp => ?_, by decide, by decide⟩
  have hne : s ≠ "mock_user" := by
    intro hrfl
    rw [hrfl] at hp
    exact absurd hp (by decide)
  simp only [clean_phone_number, beq_eq_false_iff_ne.mpr hne, if_false, hp, if_true,
    Bool.false_eq_true]

/-- Witness for C8: the SIP prefix of a concrete identifier is stripped before
filtering. -/
theorem clean_phone_number_cases_witness :
    clean_phone_number "sip_12894685551" =
      ⟨(("sip_12894685551" : String).data.drop 4).filter (fun c => pyIsDigit c || c == '+')⟩ :=
  clean_phone_number_cases.2.1 "sip_12894685551" (by decide)

/-- **C4.** The classifier returns true on the empty identifier, on every identifier
consisting only of whitespace, and on every identifier containing — case-insensitively,
as a substring, with or without the `sip_` prefix — one of the denylist tokens; and it
returns false on every well-formed 10-digit phone number. -/
theorem is_unknown_spec :
    is_unknown "" = true ∧
    (∀ s : String, (∀ c ∈ s.data, pyIsSpace c = true) → is_unknown s = true) ∧
    (∀ s tok : String, tok ∈ denylist_tokens →
      strContainsSubstr (pyLower s) tok = true → is_unknown s = true) ∧
    (∀ s tok : String, tok ∈ denylist_tokens →
      strContainsSubstr (pyLower s) ("sip_" ++ tok) = true → is_unknown s = true) ∧
    (∀ s : String, s.data.length = 10 → (∀ c ∈ s.data, isAsciiDigit c = true) →
      is_unknown s = false) := by
  have hpart3 : ∀ s tok : String, tok ∈ denylist_tokens →
      strContainsSubstr (pyLower s) tok = true → is_unknown s = true := by
    intro s tok htok hsub
    simp only [denylist_tokens, List.mem_cons, List.not_mem_nil, or_false] at htok
    rcases htok with rfl | rfl | rfl | rfl | rfl | rfl <;> simp [is_unknown, hsub]
  refine ⟨by decide, fun s h => ?_, hpart3, fun s tok htok hsub => ?_, fun s hlen hdig => ?_⟩
  · have hstrip := pyStrip_of_spaces s h
    simp [is_unknown, hstrip]
  · refine hpart3 s tok htok ?_
    refine (strContains_iff _ _).2 (List.IsInfix.trans ?_ ((strContains_iff _ _).1 hsub))
    rw [String.data_append]
    exact (List.suffix_append _ _).isInfix
  · have hlow := pyLower_of_digits s hdig
    have hstrip := pyStrip_of_digits s hdig
    have hne : s ≠ "" := by
      intro h
      rw [h] at hlen
      simp at hlen
    have hcont : unknown_patterns.contains s = false := by
      rw [Bool.eq_false_iff]
      intro hx
      have hmem : s ∈ unknown_patterns := by simpa using hx
      simp only [unknown_patterns, List.mem_cons, List.not_mem_nil, or_false] at hmem
      rcases hmem with h | h | h | h | h | h | h | h | h | h | h | h | h
      · exact hne h
      · exact ne_of_nondigit_char s hdig _ 'u' (by decide) (by decide) h
      · exact ne_of_nondigit_char s hdig _ 'u' (by decide) (by decide) h
      · exact ne_of_nondigit_char s hdig _ 'p' (by decide) (by decide) h
      · exact ne_of_nondigit_char s hdig _ 'r' (by decide) (by decide) h
      · exact ne_of_nondigit_char s hdig _ 'u' (by decide) (by decide) h
      · exact ne_of_nondigit_char s hdig _ 'b' (by decide) (by decide) h
      · exact ne_of_nondigit_char s hdig _ 'i' (by decide) (by decide) h
      · exact ne_of_nondigit_char s hdig _ 'i' (by decide) (by decide) h
      · exact ne_of_nondigit_char s hdig _ 'i' (by decide) (by decide) h
      · exact ne_of_nondigit_char s hdig _ 'i' (by decide) (by decide) h
      · exact ne_of_nondigit_char s hdig _ 'i' (by decide) (by decide) h
      · exact ne_of_nondigit_char s hdig _ 'i' (by decide) (by decide) h
    have h1 := not_substr_of_digits s hdig "unavailable" 'u' (by decide) (by decide)
    have h2 := not_substr_of_digits s hdig "unknown" 'u' (by decide) (by decide)
    have h3 := not_substr_of_digits s hdig "anonymous" 'u' (by decide) (by decide)
    have h4 := not_substr_of_digits s hdig "private" 'p' (by decide) (by decide)
    have h5 := not_substr_of_digits s hdig "restricted" 'r' (by decide) (by decide)
    have h6 := not_substr_of_digits s hdig "blocked" 'b' (by decide) (by decide)
    have hcont' : s ∉ unknown_patterns := by simpa using hcont
    simp [is_unknown, hlow, hstrip, hne, hcont', h1, h2, h3, h4, h5, h6]

/-- Witness for C4: a blank identifier, a decorated denylist identifier (with and without
the SIP prefix) and a plain 10-digit number, classified concretely. -/
theorem is_unknown_spec_witness :
    is_unknown "" = true ∧
    is_unknown "   " = true ∧
    is_unknown "Caller-Restricted-01" = true ∧
    is_unknown "sip_blocked" = true ∧
    is_unknown "4165551234" = false :=
  ⟨is_unknown_spec.1,
   is_unknown_spec.2.1 "   " (by decide),
   is_unknown_spec.2.2.1 "Caller-Restricted-01" "restricted" (by decide) (by decide),
   is_unknown_spec.2.2.2.1 "sip_blocked" "blocked" (by decide) (by decide),
   is_unknown_spec.2.2.2.2 "4165551234" (by decide) (by decide)⟩

/-- **C5.** A caller the classifier marks unknown enters the rejecting branch: one fixed
rejection message, no tool exposed, session terminated.  Otherwise the session is active,
exposes exactly the `get_slot` capability, and every request that capability issues
carries the canonical phone number normalized from the caller identifier in its
`phoneNumber` field. -/
theorem entrypoint_branch_spec (cid : String) :
    (is_unknown cid = true →
      entrypoint_branch cid = .rejecting REJECTION_SCRIPT ∧
      session_tools (entrypoint_branch cid) = []) ∧
    (is_unknown cid = false →
      entrypoint_branch cid = .active [ToolId.get_slot] (clean_phone_number cid) ∧
      ∀ a d t : String,
        ((get_slot_request (clean_phone_number cid) a d t).payload).lookup "phoneNumber" =
          some (clean_phone_number cid)) := by
  constructor
  · intro h
    simp [entrypoint_branch, h, session_tools]
  · intro h
    exact ⟨by simp [entrypoint_branch, h], fun a d t => rfl⟩

/-- Witness for C5: the caller identifier `"unknown"` is rejected with the fixed script
and no tools; the caller identifier `"14165551234"` gets an active session exposing
exactly `get_slot`, whose requests carry the canonical number `"14165551234"`. -/
theorem entrypoint_branch_spec_witness :
    (is_unknown "unknown" = true ∧
      entrypoint_branch "unknown" = .rejecting REJECTION_SCRIPT ∧
      session_tools (entrypoint_branch "unknown") = []) ∧
    (is_unknown "14165551234" = false ∧
      entrypoint_branch "14165551234" = .active [ToolId.get_slot] "14165551234" ∧
      ((get_slot_request "14165551234" "Consultation" "2025-10-27" "10:00").payload).lookup
        "phoneNumber" = some "14165551234") := by
  have h1 := (entrypoint_branch_spec "unknown").1 (by decide)
  have h2 := (entrypoint_branch_spec "14165551234").2 (by decide)
  have hclean : clean_phone_number "14165551234" = "14165551234" := by decide
  refine ⟨⟨by decide, h1⟩, ⟨by decide, ?_, ?_⟩⟩
  · rw [← hclean]
    exact h2.1
  · rw [← hclean]
    exact h2.2 "Consultation" "2025-10-27" "10:00"

/-- **C10.** The identifier `"abc-def"` is non-empty and classified usable, yet its
canonical phone number is the empty string: the session still enters the active branch,
exposes `get_slot`, and every availability request is issued with an empty `phoneNumber`
field — the entrypoint never re-checks the normalized value for emptiness. -/
theorem active_with_empty_phone :
    is_unknown "abc-def" = false ∧
    clean_phone_number "abc-def" = "" ∧
    entrypoint_branch "abc-def" = .active [ToolId.get_slot] "" ∧
    ∀ a d t : String,
      ((get_slot_request "" a d t).payload).lookup "phoneNumber" = some "" :=
  ⟨by decide, by decide, by decide, fun a d t => rfl⟩

/-- **C6.** (Modelled from the spec; `CalendarUtil.nextBusinessDay` ships no code in
`src/`.) `nextBusinessDay` returns the first day strictly after today whose weekday is
Monday–Friday, by starting at today + 1 and advancing one day at a time over Saturday and
Sunday: the result is strictly later than today, is never a weekend day, and every
skipped day in between is a weekend day; called on a Friday it returns the following
Monday (three days later), on a Saturday the following Monday (two days later), and on a
Tuesday the next day, Wednesday. -/
theorem nextBusinessDay_spec (today : Nat) :
    today < nextBusinessDay today ∧
    isWeekend (nextBusinessDay today) = false ∧
    (∀ d : Nat, today < d → d < nextBusinessDay today → isWeekend d = true) ∧
    (today % 7 = 4 → nextBusinessDay today = today + 3 ∧ nextBusinessDay today % 7 = 0) ∧
    (today % 7 = 5 → nextBusinessDay today = today + 2 ∧ nextBusinessDay today % 7 = 0) ∧
    (today % 7 = 1 → nextBusinessDay today = today + 1 ∧ nextBusinessDay today % 7 = 2) := by
  have heq : nextBusinessDay today =
      if (today + 1) % 7 = 5 then today + 3 else if (today + 1) % 7 = 6 then today + 2
      else today + 1 := by
    unfold nextBusinessDay
    rw [skipWeekendAux_seven]
  have hW : ∀ n : Nat, isWeekend n = true ↔ (n % 7 = 5 ∨ n % 7 = 6) := by
    intro n
    simp [isWeekend]
  refine ⟨?_, ?_, ?_, ?_, ?_, ?_⟩
  · rw [heq]
    split_ifs <;> omega
  · rw [Bool.eq_false_iff, Ne, hW, heq]
    split_ifs with h5 h6 <;> omega
  · intro d hd1 hd2
    rw [hW]
    rw [heq] at hd2
    split_ifs at hd2 with h5 h6 <;> omega
  · intro h
    rw [heq]
    split_ifs <;> constructor <;> omega
  · intro h
    rw [heq]
    split_ifs <;> constructor <;> omega
  · intro h
    rw [heq]
    split_ifs <;> constructor <;> omega

/-- Witness for C6: day index 4 is a Friday (weekday convention `0 = Monday`), and the
next business day after it is the following Monday, three days later; day 12 is a
Saturday whose next business day is the Monday two days later; day 8 is a Tuesday whose
next business day is the next day, Wednesday; and day 5 (a Saturday strictly between
Friday 4 and its result) is a weekend day. -/
theorem nextBusinessDay_spec_witness :
    (nextBusinessDay 4 = 7 ∧ nextBusinessDay 4 % 7 = 0) ∧
    (nextBusinessDay 12 = 14 ∧ nextBusinessDay 12 % 7 = 0) ∧
    (nextBusinessDay 8 = 9 ∧ nextBusinessDay 8 % 7 = 2) ∧
    isWeekend 5 = true :=
  ⟨(nextBusinessDay_spec 4).2.2.2.1 (by decide),
   (nextBusinessDay_spec 12).2.2.2.2.1 (by decide),
   (nextBusinessDay_spec 8).2.2.2.2.2 (by decide),
   (nextBusinessDay_spec 4).2.2.1 5 (by decide) (by decide)⟩

